import Mathlib

/-!
Verification of the real-time chat subsystem of the Achievement Manager
backend: the WebSocket chat handler (`ChatWebSocketHandler`,
`broadcastStatus` in the handlers package), the chat service
(`ChatService.GetChat`, `ChatService.SendMessage`) and the chat
repository (`ChatRepository.GetChat`, `ChatRepository.SendMessage`).

The embedding is shallow: Go maps become association lists, MongoDB
ObjectIDs become naturals (0 is the zero / Nil ObjectID), timestamps
become naturals, a write of a JSON payload to a client connection
becomes a pair (connection id, outbound event), and the mongo `messages`
collection becomes a list of stored messages appended in order.
-/

namespace Chat

/-- MongoDB ObjectID, modelled as a natural number; `0` is the zero
(Nil) ObjectID that `primitive.ObjectIDFromHex` returns on a decode
failure and that a never-assigned `Message.ID` field holds. -/
abbrev ObjectId := Nat

/-- The inbound wire message (struct `WSMessage` of the handlers
package): fields `Type`, `ReceiverID`, `SenderID`, `Text`, `FileURL`,
`FileName`, `Typing`, `CreatedAt` in that order. -/
structure WSMessage where
  type : String
  receiverId : String
  senderId : String
  text : String
  fileUrl : String
  fileName : String
  typing : Bool
  createdAt : String
  deriving Repr, DecidableEq

/-- The persisted chat message (struct `models.Message`): fields `ID`,
`SenderID`, `ReceiverID`, `Type`, `Text`, `FileURL`, `FileName`,
`CreatedAt` in that order. -/
structure Message where
  id : ObjectId
  senderId : ObjectId
  receiverId : ObjectId
  type : String
  text : String
  fileUrl : String
  fileName : String
  createdAt : Nat
  deriving Repr, DecidableEq

/-- An outbound JSON payload written to a client connection.  Each
constructor carries exactly the keys the corresponding `WriteJSON` call
in the source emits:
* `status`: keys `type:"status"`, `userId`, `status` (from `broadcastStatus`);
* `typingEvt`: keys `type:"typing"`, `sender_id`, `typing`;
* `fileMsg`: keys `type`, `sender_id`, `receiver_id`, `file_url`,
  `file_name`, `created_at`, `id`;
* `textMsg`: keys `type:"text"`, `sender_id`, `receiver_id`, `text`,
  `created_at` — note: no `id` key in the source's text branch. -/
inductive OutEvent where
  | status (userId statusVal : String)
  | typingEvt (senderId : String) (typing : Bool)
  | fileMsg (kind senderId receiverId fileUrl fileName : String)
      (createdAt : Nat) (id : ObjectId)
  | textMsg (senderId receiverId text : String) (createdAt : Nat)
  deriving Repr, DecidableEq

/-- The connection registry: the package-level map
`clients : map[string]*websocket.Conn`, as an association list from a
participant identity to a connection id (a `Nat` standing for the
`*websocket.Conn` pointer). -/
abbrev Registry := List (String × Nat)

/-- Go map read `clients[u]` with its `ok` flag. -/
def lookupReg : Registry → String → Option Nat
  | [], _ => none
  | p :: rest, u => if p.1 = u then some p.2 else lookupReg rest u

/-- Go map deletion `delete(clients, u)`: removes the entry for key `u`. -/
def eraseReg : Registry → String → Registry
  | [], _ => []
  | p :: rest, u =>
      if p.1 = u then eraseReg rest u else p :: eraseReg rest u

/-- Go map assignment `clients[u] = conn`: inserts or replaces. -/
def insertReg (reg : Registry) (u : String) (conn : Nat) : Registry :=
  (u, conn) :: eraseReg reg u

/-- `broadcastStatus(userID, status)`: under the `clientsMu` lock, write
a `status` event to every connection currently in `clients`.  Returns
the list of (connection, payload) writes it performs. -/
def broadcastStatus (reg : Registry) (userID statusVal : String) :
    List (Nat × OutEvent) :=
  reg.map (fun p => (p.2, OutEvent.status userID statusVal))

/-- Go's `primitive.ObjectIDFromHex` accepts exactly 24 hexadecimal
characters. -/
def isHexChar (c : Char) : Bool :=
  c.isDigit || (Char.ofNat 97 ≤ c && c ≤ Char.ofNat 102) ||
    (Char.ofNat 65 ≤ c && c ≤ Char.ofNat 70)

/-- The numeric value of one hexadecimal digit. -/
def hexDigitVal (c : Char) : Nat :=
  if c.isDigit then c.toNat - 48
  else if Char.ofNat 97 ≤ c && c ≤ Char.ofNat 102 then c.toNat - 87
  else c.toNat - 55

/-- `primitive.ObjectIDFromHex`: decodes a 24-character hex string to an
ObjectID; on any other input it fails (the Go version returns the Nil
ObjectID together with an error). -/
def objectIDFromHex (s : String) : Option ObjectId :=
  if s.length = 24 ∧ s.data.all isHexChar then
    some (s.data.foldl (fun acc c => acc * 16 + hexDigitVal c) 0)
  else none

/-- The result of handling one decoded inbound event in the read loop of
`ChatWebSocketHandler`: the registry afterwards (the loop never mutates
it), the (connection, payload) writes performed in order, the message
appended to the store (`none` when nothing was persisted), and whether
the read loop continues to the next iteration. -/
structure StepResult where
  reg : Registry
  writes : List (Nat × OutEvent)
  persisted : Option Message
  continues : Bool
  deriving Repr, DecidableEq

/-- One iteration of the read loop of `ChatWebSocketHandler`, after a
successful `conn.ReadJSON(&msg)`.  `userID` is the authenticated
identity of this session, `selfConn` its own connection, `now` the
store-side `time.Now()` that `ChatRepository.SendMessage` writes into
`msg.CreatedAt` before inserting, `assignedId` the ObjectID the insert
would assign, and `storeOk` whether the insert succeeds.  The handler
discards the error of `h.Service.SendMessage`, so `storeOk` only
decides whether a message reaches the store and whether `newMsg.ID`
is overwritten from its zero value. -/
def handleEvent (reg : Registry) (userID : String) (selfConn : Nat)
    (msg : WSMessage) (now : Nat) (assignedId : ObjectId)
    (storeOk : Bool) : StepResult :=
  if msg.type = "typing" then
    match lookupReg reg msg.receiverId with
    | some rconn =>
        ⟨reg, [(rconn, OutEvent.typingEvt userID msg.typing)], none, true⟩
    | none => ⟨reg, [], none, true⟩
  else if (msg.type = "file" ∨ msg.type = "image" ∨ msg.type = "audio")
      ∧ msg.fileUrl ≠ "" then
    let senderObj := (objectIDFromHex userID).getD 0
    let receiverObj := (objectIDFromHex msg.receiverId).getD 0
    let storedId : ObjectId := if storeOk then assignedId else 0
    let stored : Message :=
      ⟨storedId, senderObj, receiverObj, msg.type, "", msg.fileUrl,
        msg.fileName, now⟩
    let response : OutEvent :=
      OutEvent.fileMsg msg.type userID msg.receiverId msg.fileUrl
        msg.fileName now storedId
    match lookupReg reg msg.receiverId with
    | some rconn =>
        ⟨reg, [(rconn, response), (selfConn, response)],
          if storeOk then some stored else none, true⟩
    | none =>
        ⟨reg, [(selfConn, response)],
          if storeOk then some stored else none, true⟩
  else if msg.type = "" ∨ msg.type = "text" then
    let senderObj := (objectIDFromHex userID).getD 0
    let receiverObj := (objectIDFromHex msg.receiverId).getD 0
    let storedId : ObjectId := if storeOk then assignedId else 0
    let stored : Message :=
      ⟨storedId, senderObj, receiverObj, "text", msg.text, "", "", now⟩
    let response : OutEvent :=
      OutEvent.textMsg userID msg.receiverId msg.text now
    match lookupReg reg msg.receiverId with
    | some rconn =>
        ⟨reg, [(rconn, response), (selfConn, response)],
          if storeOk then some stored else none, true⟩
    | none =>
        ⟨reg, [(selfConn, response)],
          if storeOk then some stored else none, true⟩
  else ⟨reg, [], none, true⟩

/-- A persistable inbound event: the kinds that reach a
`Service.SendMessage` call in the read loop (text - also the empty
default - or file/image/audio with a non-empty file URL). -/
def IsPersistable (msg : WSMessage) : Prop :=
  (msg.type = "" ∨ msg.type = "text") ∨
    ((msg.type = "file" ∨ msg.type = "image" ∨ msg.type = "audio")
      ∧ msg.fileUrl ≠ "")

instance (msg : WSMessage) : Decidable (IsPersistable msg) := by
  unfold IsPersistable
  infer_instance

/-- One item consumed by the read loop: either a decoded event together
with the store behaviour for it, or a failed `conn.ReadJSON` (transport
error, malformed JSON, or the read error produced by a client close). -/
inductive InItem where
  | evt (msg : WSMessage) (now : Nat) (assignedId : ObjectId) (storeOk : Bool)
  | readErr
  deriving Repr, DecidableEq

/-- The writes performed by the `for` read loop of
`ChatWebSocketHandler` on a stream of inbound items: events are handled
in order, the first failed read breaks the loop. -/
def runLoop (reg : Registry) (userID : String) (selfConn : Nat) :
    List InItem → List (Nat × OutEvent)
  | [] => []
  | InItem.readErr :: _ => []
  | InItem.evt msg now aid ok :: rest =>
      (handleEvent reg userID selfConn msg now aid ok).writes ++
        runLoop reg userID selfConn rest

/-- The deferred cleanup of `ChatWebSocketHandler`: delete the session's
registry entries (`delete(clients, userID)`), then broadcast
`status offline` to every connection registered at that moment (the
departing entry is already gone).  Returns the new registry and the
broadcast writes. -/
def sessionCleanup (reg : Registry) (userID : String) :
    Registry × List (Nat × OutEvent) :=
  let reg2 := eraseReg reg userID
  (reg2, broadcastStatus reg2 userID "offline")

/-- A whole active session: run the read loop on `items` (the loop ends
at the first read error or when the client produces nothing more), then
— via `defer`, hence on every termination path — run the cleanup.
Returns the final registry and all writes in order. -/
def runSession (reg : Registry) (userID : String) (selfConn : Nat)
    (items : List InItem) : Registry × List (Nat × OutEvent) :=
  let loopWrites := runLoop reg userID selfConn items
  let cleaned := sessionCleanup reg userID
  (cleaned.1, loopWrites ++ cleaned.2)

/-- The connection-acceptance prefix of `ChatWebSocketHandler`: read the
`token` query parameter (`""` when absent), validate it, upgrade the
connection, register the session and broadcast `online`.  `validate`
stands for `jwtutil.ValidateToken` returning the claims' `UserID`.
Returns the registry afterwards, the writes performed, and `some userID`
when a session (with its upgraded transport) was started. -/
def chatWebSocketAccept (reg : Registry) (token : String)
    (validate : String → Option String) (upgradeOk : Bool)
    (newConn : Nat) : Registry × List (Nat × OutEvent) × Option String :=
  if token = "" then (reg, [], none)
  else
    match validate token with
    | none => (reg, [], none)
    | some userID =>
        if upgradeOk then
          let reg2 := insertReg reg userID newConn
          (reg2, broadcastStatus reg2 userID "online", some userID)
        else (reg, [], none)

/-- `ChatRepository.SendMessage`: overwrite `msg.CreatedAt` with the
store-side `time.Now()`, insert, and on success overwrite `msg.ID` with
the inserted ID.  Returns the collection afterwards and the message as
the caller's pointer sees it (`none` result component models the
`nil, err` return). -/
def repoSendMessage (store : List Message) (msg : Message) (now : Nat)
    (assignedId : ObjectId) (ok : Bool) :
    List Message × Message × Option Message :=
  let stamped : Message :=
    ⟨msg.id, msg.senderId, msg.receiverId, msg.type, msg.text,
      msg.fileUrl, msg.fileName, now⟩
  if ok then
    let final : Message :=
      ⟨assignedId, msg.senderId, msg.receiverId, msg.type, msg.text,
        msg.fileUrl, msg.fileName, now⟩
    (store ++ [final], final, some final)
  else (store, stamped, none)

/-- The comparison `ChatRepository.GetChat` sorts by: ascending
`created_at`. -/
def createdLe (m1 m2 : Message) : Prop := m1.createdAt ≤ m2.createdAt

instance : DecidableRel createdLe := fun m1 m2 =>
  Nat.decLe m1.createdAt m2.createdAt

instance : IsTotal Message createdLe :=
  ⟨fun m1 m2 => Nat.le_total m1.createdAt m2.createdAt⟩

instance : IsTrans Message createdLe :=
  ⟨fun _ _ _ h1 h2 => Nat.le_trans h1 h2⟩

/-- The filter of `ChatRepository.GetChat`: `$or` of
`{sender_id: userID, receiver_id: friendID}` and
`{sender_id: friendID, receiver_id: userID}`. -/
def matchesPair (userID friendID : ObjectId) (m : Message) : Prop :=
  (m.senderId = userID ∧ m.receiverId = friendID) ∨
    (m.senderId = friendID ∧ m.receiverId = userID)

instance (a b : ObjectId) (m : Message) : Decidable (matchesPair a b m) := by
  unfold matchesPair
  infer_instance

/-- `ChatRepository.GetChat`: find all messages matching the two-sided
pair filter, sorted by `created_at` ascending.  The mongo `Find` with
sort option is modelled as filter-then-sort over the collection list. -/
def repoGetChat (store : List Message) (userID friendID : ObjectId) :
    List Message :=
  List.insertionSort createdLe
    (store.filter (fun m => decide (matchesPair userID friendID m)))

/-- `ChatRepository.GetChat` including its failure mode (a mongo `Find`
error): `avail` says whether the store is reachable. -/
def repoGetChatE (avail : Bool) (store : List Message)
    (userID friendID : ObjectId) : Except String (List Message) :=
  if avail then Except.ok (repoGetChat store userID friendID)
  else Except.error "store unavailable"

/-- `ChatService.GetChat`: both hex-decode errors are discarded with
`_`, so an undecodable identifier silently becomes the zero ObjectID
before the repository query runs. -/
def serviceGetChat (avail : Bool) (store : List Message)
    (userID friendID : String) : Except String (List Message) :=
  let uid := (objectIDFromHex userID).getD 0
  let fid := (objectIDFromHex friendID).getD 0
  repoGetChatE avail store uid fid

/-!
Lock-discipline model.  Each critical section of the source is embedded
as the sequence of primitive actions it performs on the `clientsMu`
mutex, on the `clients`/`online` maps, and on client connections
(`WriteJSON`), in program order.
-/

/-- A primitive action observable around the `clientsMu` mutex. -/
inductive Action where
  | lock
  | unlock
  | mapAccess
  | send (conn : Nat)
  deriving Repr, DecidableEq

/-- Action trace of `broadcastStatus`: `clientsMu.Lock()`, read the
`clients` map (the `range` expression), `conn.WriteJSON` to every
connection, `clientsMu.Unlock()` (deferred). -/
def broadcastStatusTrace (reg : Registry) : List Action :=
  Action.lock :: Action.mapAccess ::
    (reg.map (fun p => Action.send p.2) ++ [Action.unlock])

/-- Action trace of the registration block of `ChatWebSocketHandler`:
`clientsMu.Lock()`, `clients[userID] = conn`, `online[userID] = true`,
`clientsMu.Unlock()`. -/
def registerTrace : List Action :=
  [Action.lock, Action.mapAccess, Action.mapAccess, Action.unlock]

/-- Action trace of the deferred deregistration block:
`clientsMu.Lock()`, `delete(clients, userID)`, `delete(online, userID)`,
`clientsMu.Unlock()`. -/
def deregisterTrace : List Action :=
  [Action.lock, Action.mapAccess, Action.mapAccess, Action.unlock]

/-- Action trace of the locked section of one read-loop iteration of
`ChatWebSocketHandler` (the `Service.SendMessage` call of the
persistable branches happens before the lock is taken and performs no
registry access): each branch locks, reads `clients[msg.ReceiverID]`,
performs its `WriteJSON` calls, and unlocks. -/
def eventLockTrace (reg : Registry) (selfConn : Nat) (msg : WSMessage) :
    List Action :=
  if msg.type = "typing" then
    Action.lock :: Action.mapAccess ::
      ((match lookupReg reg msg.receiverId with
        | some rconn => [Action.send rconn]
        | none => []) ++ [Action.unlock])
  else if ((msg.type = "file" ∨ msg.type = "image" ∨ msg.type = "audio")
      ∧ msg.fileUrl ≠ "") ∨ (msg.type = "" ∨ msg.type = "text") then
    Action.lock :: Action.mapAccess ::
      ((match lookupReg reg msg.receiverId with
        | some rconn => [Action.send rconn]
        | none => []) ++ [Action.send selfConn, Action.unlock])
  else []

/-- Every `mapAccess` in the trace happens while the lock is held
(`depth` is the number of currently held acquisitions). -/
def accessesLocked : Nat → List Action → Bool
  | _, [] => true
  | depth, Action.lock :: rest => accessesLocked (depth + 1) rest
  | depth, Action.unlock :: rest => accessesLocked (depth - 1) rest
  | depth, Action.mapAccess :: rest =>
      decide (0 < depth) && accessesLocked depth rest
  | depth, Action.send _ :: rest => accessesLocked depth rest

/-- Some `send` (a `WriteJSON` to a client connection) in the trace
happens while the lock is held. -/
def hasSendLocked : Nat → List Action → Bool
  | _, [] => false
  | depth, Action.lock :: rest => hasSendLocked (depth + 1) rest
  | depth, Action.unlock :: rest => hasSendLocked (depth - 1) rest
  | depth, Action.mapAccess :: rest => hasSendLocked depth rest
  | depth, Action.send _ :: rest =>
      decide (0 < depth) || hasSendLocked depth rest

/-- The `id` key carried by an outbound payload, when it has one: only
the file/image/audio response of the source includes an `"id"` entry. -/
def eventMsgId : OutEvent → Option ObjectId
  | OutEvent.fileMsg _ _ _ _ _ _ i => some i
  | _ => none

/-!  Helper lemmas. -/

/-- After a Go map delete, a lookup of the deleted key fails. -/
theorem lookupReg_eraseReg (reg : Registry) (u : String) :
    lookupReg (eraseReg reg u) u = none := by
  induction reg with
  | nil => rfl
  | cons p rest ih =>
      by_cases h : p.1 = u
      · simpa [eraseReg, h] using ih
      · simpa [eraseReg, lookupReg, h] using ih

/-!  Claim theorems. -/

/-- C1: a `text` event (kind `"text"`, or the empty default) from a
connected sender is written to the receiver's connection iff the
receiver has a registry entry at the moment of dispatch, and the same
event is always echoed back to the sender's own connection. -/
theorem text_direct_delivery (reg : Registry) (userID : String)
    (selfConn : Nat) (msg : WSMessage) (now : Nat) (aid : ObjectId)
    (ok : Bool) (h : msg.type = "" ∨ msg.type = "text") :
    (∃ c, lookupReg reg msg.receiverId = some c ∧
      (handleEvent reg userID selfConn msg now aid ok).writes =
        [(c, OutEvent.textMsg userID msg.receiverId msg.text now),
         (selfConn, OutEvent.textMsg userID msg.receiverId msg.text now)]) ∨
    (lookupReg reg msg.receiverId = none ∧
      (handleEvent reg userID selfConn msg now aid ok).writes =
        [(selfConn, OutEvent.textMsg userID msg.receiverId msg.text now)]) := by
  cases hc : lookupReg reg msg.receiverId with
  | some c =>
      refine Or.inl ⟨c, rfl, ?_⟩
      rcases h with h | h <;> simp [handleEvent, h, hc]
  | none =>
      refine Or.inr ⟨rfl, ?_⟩
      rcases h with h | h <;> simp [handleEvent, h, hc]

/-- C1 witness: with `a` (connection 1) and `b` (connection 2) both
registered, a text event from `a` to `b` is forwarded to connection 2
and echoed to connection 1. -/
theorem text_direct_delivery_witness :
    (("text" : String) = "" ∨ ("text" : String) = "text") ∧
    ((∃ c, lookupReg [("b", 2)] "b" = some c ∧
      (handleEvent [("b", 2)] "a" 1 ⟨"text", "b", "", "hi", "", "", false, ""⟩
          5 42 true).writes =
        [(c, OutEvent.textMsg "a" "b" "hi" 5),
         (1, OutEvent.textMsg "a" "b" "hi" 5)]) ∨
    (lookupReg [("b", 2)] "b" = none ∧
      (handleEvent [("b", 2)] "a" 1 ⟨"text", "b", "", "hi", "", "", false, ""⟩
          5 42 true).writes =
        [(1, OutEvent.textMsg "a" "b" "hi" 5)])) :=
  ⟨Or.inr rfl,
    text_direct_delivery [("b", 2)] "a" 1
      ⟨"text", "b", "", "hi", "", "", false, ""⟩ 5 42 true (Or.inr rfl)⟩

/-- C3: the repository history query returns exactly the appended
messages between the two participants (a permutation of the collection
filtered to the pair, in either direction), sorted by creation time in
non-decreasing order. -/
theorem history_ordered_complete (store : List Message) (a b : ObjectId) :
    List.Perm (repoGetChat store a b)
      (store.filter (fun m => decide (matchesPair a b m))) ∧
    List.Sorted createdLe (repoGetChat store a b) ∧
    (∀ m, m ∈ repoGetChat store a b ↔ m ∈ store ∧ matchesPair a b m) := by
  refine ⟨List.perm_insertionSort _ _, List.sorted_insertionSort _ _, ?_⟩
  intro m
  unfold repoGetChat
  rw [(List.perm_insertionSort _ _).mem_iff, List.mem_filter]
  simp

/-- C9: an inbound event of any unhandled shape (kind not `typing`, not
text or empty, and not file/image/audio with a non-empty file URL)
persists nothing, writes nothing, leaves the registry unchanged, and
the read loop continues. -/
theorem unhandled_event_noop (reg : Registry) (userID : String)
    (selfConn : Nat) (msg : WSMessage) (now : Nat) (aid : ObjectId)
    (ok : Bool) (h1 : msg.type ≠ "typing") (h2 : msg.type ≠ "")
    (h3 : msg.type ≠ "text")
    (h4 : ¬ ((msg.type = "file" ∨ msg.type = "image" ∨ msg.type = "audio")
      ∧ msg.fileUrl ≠ "")) :
    handleEvent reg userID selfConn msg now aid ok = ⟨reg, [], none, true⟩ := by
  simp [handleEvent, h1, h2, h3, h4]

/-- C9 witness: a `file` event with an empty file URL is ignored
entirely. -/
theorem unhandled_event_noop_witness :
    (("file" : String) ≠ "typing" ∧ ("file" : String) ≠ "" ∧
     ("file" : String) ≠ "text" ∧
     ¬ ((("file" : String) = "file" ∨ ("file" : String) = "image" ∨
        ("file" : String) = "audio") ∧ ("" : String) ≠ "")) ∧
    handleEvent [("b", 2)] "a" 1 ⟨"file", "b", "", "", "", "x", false, ""⟩
        5 42 true = ⟨[("b", 2)], [], none, true⟩ :=
  ⟨by decide,
    unhandled_event_noop [("b", 2)] "a" 1
      ⟨"file", "b", "", "", "", "x", false, ""⟩ 5 42 true
      (by decide) (by decide) (by decide) (by decide)⟩

/-- C7: a missing (empty) or invalid token refuses the connection with
no registry mutation, no broadcast, and no session/transport created. -/
theorem auth_reject_no_effect (reg : Registry) (token : String)
    (validate : String → Option String) (upgradeOk : Bool) (newConn : Nat)
    (h : token = "" ∨ validate token = none) :
    chatWebSocketAccept reg token validate upgradeOk newConn =
      (reg, [], none) := by
  rcases h with h | h
  · simp [chatWebSocketAccept, h]
  · by_cases ht : token = "" <;> simp [chatWebSocketAccept, ht, h]

/-- C7 witness: a verifier that rejects everything refuses the concrete
token `"bad"` with no effect on a one-entry registry. -/
theorem auth_reject_no_effect_witness :
    (("bad" : String) = "" ∨ (fun _ : String => (none : Option String)) "bad" = none) ∧
    chatWebSocketAccept [("b", 2)] "bad" (fun _ => none) true 7 =
      ([("b", 2)], [], none) :=
  ⟨Or.inr rfl,
    auth_reject_no_effect [("b", 2)] "bad" (fun _ => none) true 7 (Or.inr rfl)⟩

/-- C10: `ChatService.GetChat` discards hex-decode failures, so a
malformed participant identifier (in either position) never produces an
error: the repository query proceeds with the zero ObjectID in place of
the invalid identifier and the call succeeds whenever the store is
reachable. -/
theorem service_getChat_malformed_ok (store : List Message)
    (userID friendID : String) (h : objectIDFromHex userID = none) :
    serviceGetChat true store userID friendID =
      Except.ok (repoGetChat store 0 ((objectIDFromHex friendID).getD 0)) ∧
    serviceGetChat true store friendID userID =
      Except.ok (repoGetChat store ((objectIDFromHex friendID).getD 0) 0) := by
  constructor <;> simp [serviceGetChat, repoGetChatE, h]

/-- C2 counterexample: for an image event to the registered receiver
`b`, with the store ready to assign id 42, the append-failure path
forwards and echoes a payload whose `id` is the zero ObjectID while the
success path forwards and echoes the payload with id 42 — so on failure
the forward/echo do NOT occur exactly as on the success path (and the
handler discards the append error without logging it: the claim's
"the error is logged" has no counterpart in the source). -/
theorem file_persist_failure_zero_id_cex :
    (handleEvent [("b", 2)] "a" 1 ⟨"image", "b", "", "", "u", "pic", false, ""⟩
        5 42 false).writes =
      [(2, OutEvent.fileMsg "image" "a" "b" "u" "pic" 5 0),
       (1, OutEvent.fileMsg "image" "a" "b" "u" "pic" 5 0)] ∧
    (handleEvent [("b", 2)] "a" 1 ⟨"image", "b", "", "", "u", "pic", false, ""⟩
        5 42 true).writes =
      [(2, OutEvent.fileMsg "image" "a" "b" "u" "pic" 5 42),
       (1, OutEvent.fileMsg "image" "a" "b" "u" "pic" 5 42)] ∧
    (handleEvent [("b", 2)] "a" 1 ⟨"image", "b", "", "", "u", "pic", false, ""⟩
        5 42 false).writes ≠
      (handleEvent [("b", 2)] "a" 1 ⟨"image", "b", "", "", "u", "pic", false, ""⟩
        5 42 true).writes := by
  decide

/-- C2 amended: a store append failure does not abort the session: the
append error is silently discarded, the loop continues, the registry is
untouched, nothing is persisted, and the forward/echo writes target
exactly the same connections under the same conditions as on the success
path (the echo to the sender always, the forward exactly when the
receiver is registered); for text events the written payloads are
identical to the success path, while for file/image/audio events the
forwarded and echoed payload carries the zero ObjectID in its `id` field
instead of a store-assigned id. -/
theorem persist_failure_independent (reg : Registry) (userID : String)
    (selfConn : Nat) (msg : WSMessage) (now : Nat) (aid : ObjectId)
    (hp : IsPersistable msg) :
    (handleEvent reg userID selfConn msg now aid false).continues = true ∧
    (handleEvent reg userID selfConn msg now aid false).reg = reg ∧
    (handleEvent reg userID selfConn msg now aid false).persisted = none ∧
    (handleEvent reg userID selfConn msg now aid false).writes.map Prod.fst =
      (handleEvent reg userID selfConn msg now aid true).writes.map Prod.fst ∧
    (lookupReg reg msg.receiverId = none →
      (handleEvent reg userID selfConn msg now aid false).writes.map
        Prod.fst = [selfConn]) ∧
    (∀ c, lookupReg reg msg.receiverId = some c →
      (handleEvent reg userID selfConn msg now aid false).writes.map
        Prod.fst = [c, selfConn]) ∧
    ((msg.type = "" ∨ msg.type = "text") →
      (handleEvent reg userID selfConn msg now aid false).writes =
        (handleEvent reg userID selfConn msg now aid true).writes) ∧
    ((msg.type = "file" ∨ msg.type = "image" ∨ msg.type = "audio") →
      (handleEvent reg userID selfConn msg now aid false).writes =
        (match lookupReg reg msg.receiverId with
         | some c => [(c, OutEvent.fileMsg msg.type userID msg.receiverId
             msg.fileUrl msg.fileName now 0)]
         | none => []) ++
        [(selfConn, OutEvent.fileMsg msg.type userID msg.receiverId
            msg.fileUrl msg.fileName now 0)]) := by
  rcases hp with h | ⟨hk, hurl⟩
  · rcases h with h | h <;> cases hc : lookupReg reg msg.receiverId <;>
      simp [handleEvent, h, hc]
  · rcases hk with hk | hk | hk <;> cases hc : lookupReg reg msg.receiverId <;>
      simp [handleEvent, hk, hurl, hc]

/-- C2 amended witness: a text event to the registered receiver `b`
behaves the same whether the store append succeeds or fails. -/
theorem persist_failure_independent_witness :
    IsPersistable ⟨"text", "b", "", "hi", "", "", false, ""⟩ ∧
    ((handleEvent [("b", 2)] "a" 1 ⟨"text", "b", "", "hi", "", "", false, ""⟩
        5 42 false).continues = true ∧
    (handleEvent [("b", 2)] "a" 1 ⟨"text", "b", "", "hi", "", "", false, ""⟩
        5 42 false).reg = [("b", 2)] ∧
    (handleEvent [("b", 2)] "a" 1 ⟨"text", "b", "", "hi", "", "", false, ""⟩
        5 42 false).persisted = none ∧
    (handleEvent [("b", 2)] "a" 1 ⟨"text", "b", "", "hi", "", "", false, ""⟩
        5 42 false).writes.map Prod.fst =
      (handleEvent [("b", 2)] "a" 1 ⟨"text", "b", "", "hi", "", "", false, ""⟩
        5 42 true).writes.map Prod.fst ∧
    (lookupReg [("b", 2)] "b" = none →
      (handleEvent [("b", 2)] "a" 1 ⟨"text", "b", "", "hi", "", "", false, ""⟩
        5 42 false).writes.map Prod.fst = [1]) ∧
    (∀ c, lookupReg [("b", 2)] "b" = some c →
      (handleEvent [("b", 2)] "a" 1 ⟨"text", "b", "", "hi", "", "", false, ""⟩
        5 42 false).writes.map Prod.fst = [c, 1]) ∧
    ((("text" : String) = "" ∨ ("text" : String) = "text") →
      (handleEvent [("b", 2)] "a" 1 ⟨"text", "b", "", "hi", "", "", false, ""⟩
        5 42 false).writes =
      (handleEvent [("b", 2)] "a" 1 ⟨"text", "b", "", "hi", "", "", false, ""⟩
        5 42 true).writes) ∧
    ((("text" : String) = "file" ∨ ("text" : String) = "image" ∨
        ("text" : String) = "audio") →
      (handleEvent [("b", 2)] "a" 1 ⟨"text", "b", "", "hi", "", "", false, ""⟩
        5 42 false).writes =
        (match lookupReg [("b", 2)] "b" with
         | some c => [(c, OutEvent.fileMsg "text" "a" "b" "" "" 5 0)]
         | none => []) ++
        [(1, OutEvent.fileMsg "text" "a" "b" "" "" 5 0)])) :=
  ⟨by decide,
    persist_failure_independent [("b", 2)] "a" 1
      ⟨"text", "b", "", "hi", "", "", false, ""⟩ 5 42 (by decide)⟩

/-- C4 counterexample: a persisted text event (store assigns id 42) is
forwarded and echoed as a payload that carries no `id` key at all, so
the enriched text event does not carry the store-assigned id, contrary
to the claim's uniform enrichment for all persisted kinds. -/
theorem text_enrichment_missing_id :
    (handleEvent [("a", 1), ("b", 2)] "a" 1
      ⟨"text", "b", "", "hi", "", "", false, ""⟩ 5 42 true).persisted.isSome
        = true ∧
    (handleEvent [("a", 1), ("b", 2)] "a" 1
      ⟨"text", "b", "", "hi", "", "", false, ""⟩ 5 42 true).writes =
      [(2, OutEvent.textMsg "a" "b" "hi" 5),
       (1, OutEvent.textMsg "a" "b" "hi" 5)] ∧
    eventMsgId (OutEvent.textMsg "a" "b" "hi" 5) = none := by
  decide

/-- C4 amended: for every persisted inbound event the payload forwarded
to the receiver (when registered) and the payload echoed to the sender
are one and the same enriched event; for file/image/audio it carries the
store-assigned id and timestamp; a text event carries the text and the
store-assigned timestamp but no id. -/
theorem enrichment_forward_echo (reg : Registry) (userID : String)
    (selfConn : Nat) (msg : WSMessage) (now : Nat) (aid : ObjectId)
    (hp : IsPersistable msg) :
    ∃ e, ((handleEvent reg userID selfConn msg now aid true).writes =
        (match lookupReg reg msg.receiverId with
         | some c => [(c, e)]
         | none => []) ++ [(selfConn, e)]) ∧
      ((msg.type = "file" ∨ msg.type = "image" ∨ msg.type = "audio") →
        e = OutEvent.fileMsg msg.type userID msg.receiverId msg.fileUrl
          msg.fileName now aid ∧ eventMsgId e = some aid) ∧
      ((msg.type = "" ∨ msg.type = "text") →
        e = OutEvent.textMsg userID msg.receiverId msg.text now ∧
        eventMsgId e = none) := by
  rcases hp with h | ⟨hk, hurl⟩
  · refine ⟨OutEvent.textMsg userID msg.receiverId msg.text now, ?_, ?_, ?_⟩
    · rcases h with h | h <;> cases hc : lookupReg reg msg.receiverId <;>
        simp [handleEvent, h, hc]
    · intro hk2
      rcases h with h | h <;> rcases hk2 with hk2 | hk2 | hk2 <;>
        simp [h] at hk2
    · intro _
      exact ⟨rfl, rfl⟩
  · refine ⟨OutEvent.fileMsg msg.type userID msg.receiverId msg.fileUrl
      msg.fileName now aid, ?_, ?_, ?_⟩
    · rcases hk with hk | hk | hk <;> cases hc : lookupReg reg msg.receiverId <;>
        simp [handleEvent, hk, hurl, hc]
    · intro _
      exact ⟨rfl, rfl⟩
    · intro h2
      rcases hk with hk | hk | hk <;> rcases h2 with h2 | h2 <;>
        simp [hk] at h2

/-- C4 witness: a persisted image event to the registered receiver `b`
is forwarded to connection 2 and echoed to connection 1 as the same
payload carrying the assigned id 42 and timestamp 5. -/
theorem enrichment_forward_echo_witness :
    IsPersistable ⟨"image", "b", "", "", "u", "pic", false, ""⟩ ∧
    (∃ e, ((handleEvent [("b", 2)] "a" 1
        ⟨"image", "b", "", "", "u", "pic", false, ""⟩ 5 42 true).writes =
        (match lookupReg [("b", 2)] "b" with
         | some c => [(c, e)]
         | none => []) ++ [(1, e)]) ∧
      ((("image" : String) = "file" ∨ ("image" : String) = "image" ∨
          ("image" : String) = "audio") →
        e = OutEvent.fileMsg "image" "a" "b" "u" "pic" 5 42 ∧
          eventMsgId e = some 42) ∧
      ((("image" : String) = "" ∨ ("image" : String) = "text") →
        e = OutEvent.textMsg "a" "b" "" 5 ∧ eventMsgId e = none)) :=
  ⟨by decide,
    enrichment_forward_echo [("b", 2)] "a" 1
      ⟨"image", "b", "", "", "u", "pic", false, ""⟩ 5 42 (by decide)⟩

/-- C5 counterexample: a typing event whose receiver is the sender
itself (`a` registered on connection 1): the forwarded typing payload is
written to connection 1, which IS the sender's own connection, so the
claim's "nothing is written to s's own stream" fails at this input. -/
theorem typing_self_write_cex :
    (handleEvent [("a", 1)] "a" 1 ⟨"typing", "a", "", "", "", "", true, ""⟩
        0 0 true).writes = [(1, OutEvent.typingEvt "a" true)] ∧
    (∃ p ∈ (handleEvent [("a", 1)] "a" 1
        ⟨"typing", "a", "", "", "", "", true, ""⟩ 0 0 true).writes,
      p.1 = 1) := by
  decide

/-- C5 amended: an inbound typing event forwards exactly one typing
payload (carrying the sender and the flag) to the receiver's connection
when the receiver is registered, and writes nothing at all otherwise; no
message is persisted, the registry is untouched, the loop continues, and
no write beyond that single forward occurs — in particular nothing is
written to the sender's own stream whenever the receiver differs from
the sender (when they coincide, the forward itself targets the sender's
own connection). -/
theorem typing_dispatch (reg : Registry) (userID : String)
    (selfConn : Nat) (msg : WSMessage) (now : Nat) (aid : ObjectId)
    (ok : Bool) (h : msg.type = "typing") :
    (handleEvent reg userID selfConn msg now aid ok).persisted = none ∧
    (handleEvent reg userID selfConn msg now aid ok).reg = reg ∧
    (handleEvent reg userID selfConn msg now aid ok).continues = true ∧
    (lookupReg reg msg.receiverId = none →
      (handleEvent reg userID selfConn msg now aid ok).writes = []) ∧
    (∀ c, lookupReg reg msg.receiverId = some c →
      (handleEvent reg userID selfConn msg now aid ok).writes =
        [(c, OutEvent.typingEvt userID msg.typing)]) ∧
    (∀ c, lookupReg reg msg.receiverId = some c → c ≠ selfConn →
      ∀ p ∈ (handleEvent reg userID selfConn msg now aid ok).writes,
        p.1 ≠ selfConn) := by
  cases hc : lookupReg reg msg.receiverId <;>
    simp [handleEvent, h, hc]

/-- C5 witness: `a` (connection 1) sends typing to registered `b`
(connection 2): exactly one typing payload goes to connection 2, none to
connection 1, nothing is persisted. -/
theorem typing_dispatch_witness :
    (("typing" : String) = "typing") ∧
    ((handleEvent [("b", 2)] "a" 1 ⟨"typing", "b", "", "", "", "", true, ""⟩
        0 0 true).persisted = none ∧
    (handleEvent [("b", 2)] "a" 1 ⟨"typing", "b", "", "", "", "", true, ""⟩
        0 0 true).reg = [("b", 2)] ∧
    (handleEvent [("b", 2)] "a" 1 ⟨"typing", "b", "", "", "", "", true, ""⟩
        0 0 true).continues = true ∧
    (lookupReg [("b", 2)] "b" = none →
      (handleEvent [("b", 2)] "a" 1 ⟨"typing", "b", "", "", "", "", true, ""⟩
        0 0 true).writes = []) ∧
    (∀ c, lookupReg [("b", 2)] "b" = some c →
      (handleEvent [("b", 2)] "a" 1 ⟨"typing", "b", "", "", "", "", true, ""⟩
        0 0 true).writes = [(c, OutEvent.typingEvt "a" true)]) ∧
    (∀ c, lookupReg [("b", 2)] "b" = some c → c ≠ 1 →
      ∀ p ∈ (handleEvent [("b", 2)] "a" 1
        ⟨"typing", "b", "", "", "", "", true, ""⟩ 0 0 true).writes,
        p.1 ≠ 1)) :=
  ⟨rfl,
    typing_dispatch [("b", 2)] "a" 1 ⟨"typing", "b", "", "", "", "", true, ""⟩
      0 0 true rfl⟩

/-- C6: whatever makes the read loop end (a transport read error, a
decode error, a client close — all surfacing as a failed `ReadJSON` — or
the input stream running out), the deferred cleanup removes the
participant's registry entry, a subsequent lookup of the participant
fails, and a `status offline` payload is broadcast to every connection
registered at that moment. -/
theorem disconnect_offline_broadcast (reg : Registry) (userID : String)
    (selfConn : Nat) (items : List InItem) :
    (runSession reg userID selfConn items).1 = eraseReg reg userID ∧
    lookupReg (runSession reg userID selfConn items).1 userID = none ∧
    (∃ pre, (runSession reg userID selfConn items).2 =
      pre ++ broadcastStatus (eraseReg reg userID) userID "offline") ∧
    (∀ p ∈ eraseReg reg userID,
      (p.2, OutEvent.status userID "offline") ∈
        (runSession reg userID selfConn items).2) := by
  refine ⟨rfl, ?_, ⟨runLoop reg userID selfConn items, rfl⟩, ?_⟩
  · simpa [runSession, sessionCleanup] using lookupReg_eraseReg reg userID
  · intro p hp
    have hmem : (p.2, OutEvent.status userID "offline") ∈
        broadcastStatus (eraseReg reg userID) userID "offline" :=
      List.mem_map.mpr ⟨p, hp, rfl⟩
    have hsplit : (runSession reg userID selfConn items).2 =
        runLoop reg userID selfConn items ++
          broadcastStatus (eraseReg reg userID) userID "offline" := rfl
    rw [hsplit]
    exact List.mem_append_right _ hmem

/-- Helper: the send block of a status broadcast keeps every map access
requirement satisfied (it contains none) down to the final unlock. -/
theorem accessesLocked_sends (reg : Registry) (d : Nat) :
    accessesLocked d (reg.map (fun p => Action.send p.2) ++ [Action.unlock])
      = true := by
  induction reg with
  | nil => rfl
  | cons p rest ih => simpa [accessesLocked] using ih

/-- C8 counterexample: in `broadcastStatus`, with one registered client
on connection 7, the `WriteJSON` send happens while `clientsMu` is held,
refuting "the lock is never held across a channel send". -/
theorem lock_across_send_cex :
    hasSendLocked 0 (broadcastStatusTrace [("b", 7)]) = true := by
  decide

/-- C8 amended: every registry (map) access in the chat code paths does
happen under the single `clientsMu` lock, but the lock is also held
across the connection sends: the status fan-out sends under the lock
whenever any client is registered, and the persistable-event branches
send (at least the sender echo) under the lock. -/
theorem lock_serialization (reg : Registry) (selfConn : Nat)
    (msg : WSMessage) (h : reg ≠ []) :
    accessesLocked 0 (broadcastStatusTrace reg) = true ∧
    accessesLocked 0 registerTrace = true ∧
    accessesLocked 0 deregisterTrace = true ∧
    accessesLocked 0 (eventLockTrace reg selfConn msg) = true ∧
    hasSendLocked 0 (broadcastStatusTrace reg) = true ∧
    (IsPersistable msg →
      hasSendLocked 0 (eventLockTrace reg selfConn msg) = true) := by
  refine ⟨?_, rfl, rfl, ?_, ?_, ?_⟩
  · simpa [broadcastStatusTrace, accessesLocked] using accessesLocked_sends reg 1
  · by_cases h1 : msg.type = "typing"
    · cases hc : lookupReg reg msg.receiverId <;>
        simp [eventLockTrace, h1, hc, accessesLocked]
    · by_cases h2 : ((msg.type = "file" ∨ msg.type = "image" ∨
          msg.type = "audio") ∧ msg.fileUrl ≠ "") ∨
          (msg.type = "" ∨ msg.type = "text")
      · cases hc : lookupReg reg msg.receiverId <;>
          simp [eventLockTrace, h1, h2, hc, accessesLocked]
      · simp [eventLockTrace, h1, h2, accessesLocked]
  · cases reg with
    | nil => exact absurd rfl h
    | cons p rest => simp [broadcastStatusTrace, hasSendLocked]
  · intro hp
    have h1 : ¬ msg.type = "typing" := by
      rcases hp with hh | ⟨hk, _⟩
      · rcases hh with hh | hh <;> simp [hh]
      · rcases hk with hk | hk | hk <;> simp [hk]
    have h2 : ((msg.type = "file" ∨ msg.type = "image" ∨
        msg.type = "audio") ∧ msg.fileUrl ≠ "") ∨
        (msg.type = "" ∨ msg.type = "text") := by
      rcases hp with hh | hh
      · exact Or.inr hh
      · exact Or.inl hh
    cases hc : lookupReg reg msg.receiverId <;>
      simp [eventLockTrace, h1, h2, hc, hasSendLocked]

/-- C8 witness: with client `b` registered on connection 7 and a text
event, all map accesses are lock-protected and sends do occur under the
lock. -/
theorem lock_serialization_witness :
    ([("b", 7)] : Registry) ≠ [] ∧
    (accessesLocked 0 (broadcastStatusTrace [("b", 7)]) = true ∧
    accessesLocked 0 registerTrace = true ∧
    accessesLocked 0 deregisterTrace = true ∧
    accessesLocked 0 (eventLockTrace [("b", 7)] 1
      ⟨"text", "b", "", "hi", "", "", false, ""⟩) = true ∧
    hasSendLocked 0 (broadcastStatusTrace [("b", 7)]) = true ∧
    (IsPersistable ⟨"text", "b", "", "hi", "", "", false, ""⟩ →
      hasSendLocked 0 (eventLockTrace [("b", 7)] 1
        ⟨"text", "b", "", "hi", "", "", false, ""⟩) = true)) :=
  ⟨by decide,
    lock_serialization [("b", 7)] 1 ⟨"text", "b", "", "hi", "", "", false, ""⟩
      (by decide)⟩

/-- C10 witness: the malformed identifier `"zz"` together with a valid
24-hex identifier yields a successful (empty) history on the empty
store, with the zero ObjectID standing in for `"zz"`. -/
theorem service_getChat_malformed_ok_witness :
    objectIDFromHex "zz" = none ∧
    (serviceGetChat true [] "zz" "000000000000000000000001" =
      Except.ok (repoGetChat []
        0 ((objectIDFromHex "000000000000000000000001").getD 0)) ∧
    serviceGetChat true [] "000000000000000000000001" "zz" =
      Except.ok (repoGetChat []
        ((objectIDFromHex "000000000000000000000001").getD 0) 0)) :=
  ⟨by decide,
    service_getChat_malformed_ok [] "zz" "000000000000000000000001"
      (by decide)⟩

end Chat
